import Mathlib

/-!
# Verification of the sales-chatbot query engine

A shallow embedding, in Lean 4, of the deterministic core of the
sales-analytics chatbot: the month normalizer (`data_loader.py`), the
`top_n` parameter validation (`ai_extractor.py`) and the
filter/aggregate/top-n/yoy engine (`query_engine.py`).

Modelling conventions:
* pandas `DataFrame` rows become a `List Row`; column *presence* is a
  frame-level capability flag (a pandas frame either has a column or not).
* Python `str.lower()` / `str.upper()` / `str.strip()` are modelled on the
  ASCII fragment (`Char.toLower` / `Char.toUpper` in Lean core are exactly
  the ASCII case maps; `Char.isWhitespace` covers the ASCII whitespace the
  repository's data can contain).
* numeric sales values are `Option ℚ` (`none` = pandas `NaN`, skipped by
  `sum`/`mean`); machine floats are modelled as exact rationals, and a
  division whose divisor is `0` (a non-finite float in pandas) appears here
  as the rational `0` — noted at every use site.
* a raised Python exception crossing the engine boundary is
  `PyResult.raised`.
* the human-facing `formatted` f-strings are presentation-only and not
  modelled; the `error` / `message` / `filters_applied` / `row_count` /
  `data` / `chart_type` fields of the returned dicts are modelled exactly.
-/

namespace SalesChatbot

/-! ## Python string primitives (ASCII model) -/

/-- Python `str.lower()` restricted to ASCII: `Char.toLower` maps exactly
`A`–`Z` to `a`–`z` and fixes everything else. -/
def pyLower (s : String) : String := ⟨s.data.map Char.toLower⟩

/-- Python `str.upper()` restricted to ASCII. -/
def pyUpper (s : String) : String := ⟨s.data.map Char.toUpper⟩

/-- Strip a character list of leading and trailing whitespace. -/
def stripList (l : List Char) : List Char :=
  ((l.dropWhile Char.isWhitespace).reverse.dropWhile Char.isWhitespace).reverse

/-- Python `str.strip()` (ASCII whitespace model). -/
def pyStrip (s : String) : String := ⟨stripList s.data⟩

/-! ## Month normalizer (`data_loader.py`, lines 10–40) -/

/-- The `MONTH_MAPPING` dict of `data_loader.py`, in source order. -/
def MONTH_MAPPING : List (String × String) :=
  [("january", "JAN"), ("jan", "JAN"),
   ("february", "FEB"), ("feb", "FEB"),
   ("march", "MAR"), ("mar", "MAR"),
   ("april", "APR"), ("apr", "APR"),
   ("may", "MAY"),
   ("june", "JUN"), ("jun", "JUN"),
   ("july", "JUL"), ("jul", "JUL"),
   ("august", "AUG"), ("aug", "AUG"),
   ("september", "SEP"), ("sep", "SEP"),
   ("october", "OCT"), ("oct", "OCT"),
   ("november", "NOV"), ("nov", "NOV"),
   ("december", "DEC"), ("dec", "DEC")]

/-- Python `dict.get(key, default=None)` on an association list. -/
def dictGet (d : List (String × String)) (k : String) : Option String :=
  match d with
  | [] => none
  | (k', v) :: rest => if k = k' then some v else dictGet rest k

/-- The `normalize_month` function of `data_loader.py`.  A falsy argument
(`None` or the empty string) returns `None`; otherwise the stripped,
lower-cased input is looked up in `MONTH_MAPPING`, falling back to
upper-casing the original input unchanged. -/
def normalize_month : Option String → Option String
  | none => none
  | some s =>
    if s = "" then none
    else
      match dictGet MONTH_MAPPING (pyLower (pyStrip s)) with
      | some c => some c
      | none => some (pyUpper s)

/-! ## Data model

A pandas `DataFrame` is a `Frame`: a list of rows plus capability flags
recording which *optional* columns exist (`category`, `sub_brand`, `area`,
`city`).  A row's value in a column whose flag is `false` is meaningless
and never consulted on the corresponding code path. -/

structure Row where
  brand : String
  category : String
  sub_brand : String
  month : String
  year : Int
  area : String
  city : String
  store_id : String
  sales : Option ℚ
deriving DecidableEq, Repr

/-- The outcome of calling a Python function: either a normal return value
or an uncaught exception propagating to the caller. -/
inductive PyResult (α : Type) where
  | raised (msg : String)
  | ok (val : α)
deriving DecidableEq, Repr

structure Frame where
  hasCategory : Bool
  hasSubBrand : Bool
  hasArea : Bool
  hasCity : Bool
  rows : List Row
deriving DecidableEq, Repr

/-- The validated parameter record handed to `query_data` (the shape of
`ai_extractor.validate_parameters`' output): `metric` and `aggregation`
always present, everything else nullable. -/
structure Params where
  brand : Option String
  product : Option String
  month : Option String
  year : Option Int
  region : Option String
  metric : String
  aggregation : String
  comparison : Option String
  top_n : Option Int
deriving DecidableEq, Repr

/-- Python truthiness of an optional string (`None` and `""` are falsy). -/
def truthyStr : Option String → Bool
  | none => false
  | some s => s != ""

/-- Python truthiness of an optional integer (`None` and `0` are falsy). -/
def truthyInt : Option Int → Bool
  | none => false
  | some n => n != 0

/-! ## Result records

The engine returns ad hoc dicts; they are unified here into one
discriminated record. -/

structure SalesLine where
  brand : String
  month : String
  year : Int
  sales : Option ℚ
deriving DecidableEq, Repr

structure StoreLine where
  brand : String
  month : String
  year : Int
  store_id : String
deriving DecidableEq, Repr

/-- A row of a top-N result table: group key, aggregated value,
percentage share. -/
structure RankLine where
  key : String
  value : ℚ
  percentage : ℚ
deriving DecidableEq, Repr

/-- A row of a YoY result table (`yoy_change_pct` / `yoy_change_abs` are
`none` for the first year, mirroring pandas `NaN`). -/
structure YoyLine where
  year : Int
  value : ℚ
  yoy_change_pct : Option ℚ
  yoy_change_abs : Option ℚ
deriving DecidableEq, Repr

inductive DataTable where
  | salesCols (lines : List SalesLine)
  | storeCols (lines : List StoreLine)
  | rawRows (lines : List Row)
  | topBrands (lines : List RankLine)
  | topActiveBrands (lines : List RankLine)
  | yoyTable (lines : List YoyLine)
  | yoyActiveTable (lines : List YoyLine)
  | yoyBare (lines : List (Int × ℚ))
  | yoyActiveBare (lines : List (Int × Nat))
deriving DecidableEq, Repr

/-- The discriminated query result.  `error` carries the `"error"` string
of the returned dict, the optional `"message"`, the optional echoed
`"filters_applied"` dict (represented by the parameter record whose
non-`None` fields are echoed) and the optional partial `"data"` table. -/
inductive QueryResult where
  | success (value : ℚ) (row_count : Nat) (data : DataTable)
      (chart_type : Option String)
  | error (error : String) (message : Option String)
      (filters_applied : Option Params) (data : Option DataTable)
deriving DecidableEq, Repr

/-- The `row_count` field of a success dict, if any. -/
def QueryResult.rowCount : QueryResult → Option Nat
  | .success _ rc _ _ => some rc
  | .error _ _ _ _ => none

/-! ## Filter Stage (`query_engine.query_data`, lines 26–56) -/

def filterBrand (p : Params) (rows : List Row) : List Row :=
  match p.brand with
  | some b => if b != "" then rows.filter (fun r => pyLower r.brand == pyLower b) else rows
  | none => rows

def filterProduct (f : Frame) (p : Params) (rows : List Row) : List Row :=
  match p.product with
  | some pr =>
    if pr != "" then
      if f.hasCategory then rows.filter (fun r => pyLower r.category == pyLower pr)
      else if f.hasSubBrand then rows.filter (fun r => pyLower r.sub_brand == pyLower pr)
      else rows
    else rows
  | none => rows

def filterMonth (p : Params) (rows : List Row) : List Row :=
  match p.month with
  | some m =>
    if m != "" then rows.filter (fun r => normalize_month (some m) == some r.month)
    else rows
  | none => rows

/-- Lines 46–48: the year predicate is applied only when the parameter is
truthy *and* `comparison` is not `"yoy"`. -/
def filterYear (p : Params) (rows : List Row) : List Row :=
  match p.year with
  | some y =>
    if y != 0 && !(p.comparison == some "yoy") then rows.filter (fun r => r.year == y)
    else rows
  | none => rows

/-- Lines 50–56.  The source accesses `result['area']` and then
`result['city']` unconditionally; a missing column raises a `KeyError`,
modelled as `PyResult.raised`. -/
def filterRegion (f : Frame) (p : Params) (rows : List Row) : PyResult (List Row) :=
  match p.region with
  | some reg =>
    if reg != "" then
      if !f.hasArea then .raised "KeyError: area"
      else if !f.hasCity then .raised "KeyError: city"
      else .ok (rows.filter (fun r =>
        pyLower r.area == pyLower reg || pyLower r.city == pyLower reg))
    else .ok rows
  | none => .ok rows

def applyFilters (f : Frame) (p : Params) : PyResult (List Row) :=
  filterRegion f p (filterYear p (filterMonth p (filterProduct f p (filterBrand p f.rows))))

/-! ## groupby machinery

With the default `sort=True`, `df.groupby(k)` aggregates over the distinct
key values in ascending key order. -/

def sortedDistinct {κ : Type} [DecidableEq κ] (le : κ → κ → Prop) [DecidableRel le]
    (l : List κ) : List κ :=
  l.dedup.insertionSort le

/-- Python string comparison: lexicographic by code point (executable, so
that concrete queries evaluate inside the kernel). -/
def listCharLE : List Char → List Char → Bool
  | [], _ => true
  | _ :: _, [] => false
  | a :: as, b :: bs =>
    if a.toNat < b.toNat then true
    else if b.toNat < a.toNat then false
    else listCharLE as bs

def strLE (a b : String) : Prop := listCharLE a.data b.data = true

instance : DecidableRel strLE := fun a b => by unfold strLE; infer_instance

/-- pandas sum over a nullable column: `NaN` entries are skipped, an
all-`NaN` (or empty) selection sums to `0`. -/
def sumSales (rows : List Row) : ℚ := (rows.filterMap (·.sales)).sum

/-- pandas mean over the non-null entries (`NaN`, i.e. an artifact `0`
here, when there are none — no claim touches that corner). -/
def meanSales (rows : List Row) : ℚ :=
  let vals := rows.filterMap (·.sales)
  vals.sum / (vals.length : ℚ)

/-- Model of `df.groupby('brand')['sales'].sum()`. -/
def brandSums (rows : List Row) : List (String × ℚ) :=
  (sortedDistinct strLE (rows.map (·.brand))).map
    (fun b => (b, sumSales (rows.filter (·.brand == b))))

/-- Model of `df.groupby('year')['sales'].sum()`. -/
def yearSums (rows : List Row) : List (Int × ℚ) :=
  (sortedDistinct (· ≤ ·) (rows.map (·.year))).map
    (fun y => (y, sumSales (rows.filter (·.year == y))))

/-- Net sales of one store over a set of rows. -/
def storeNet (rows : List Row) (s : String) : ℚ :=
  sumSales (rows.filter (·.store_id == s))

/-- Lines 95–99: store ids whose net sales over the whole working set are
strictly positive. -/
def activeStoreIds (rows : List Row) : List String :=
  (sortedDistinct strLE (rows.map (·.store_id))).filter
    (fun s => decide (0 < storeNet rows s))

def pairLEStrStr (a b : String × String) : Prop :=
  (a.1 ≠ b.1 ∧ strLE a.1 b.1) ∨ (a.1 = b.1 ∧ strLE a.2 b.2)

instance : DecidableRel pairLEStrStr := fun a b => by
  unfold pairLEStrStr; infer_instance

def pairLEIntStr (a b : Int × String) : Prop :=
  a.1 < b.1 ∨ (a.1 = b.1 ∧ strLE a.2 b.2)

instance : DecidableRel pairLEIntStr := fun a b => by
  unfold pairLEIntStr; infer_instance

/-- Model of `df.groupby(['brand', 'store_id'])['sales'].sum()`. -/
def brandStoreSums (rows : List Row) : List ((String × String) × ℚ) :=
  (sortedDistinct pairLEStrStr (rows.map (fun r => (r.brand, r.store_id)))).map
    (fun k => (k, sumSales (rows.filter (fun r => r.brand == k.1 && r.store_id == k.2))))

/-- Model of `df.groupby(['year', 'store_id'])['sales'].sum()`. -/
def yearStoreSums (rows : List Row) : List ((Int × String) × ℚ) :=
  (sortedDistinct pairLEIntStr (rows.map (fun r => (r.year, r.store_id)))).map
    (fun k => (k, sumSales (rows.filter (fun r => r.year == k.1 && r.store_id == k.2))))

/-- The positive-net (brand, store) pairs of lines 151–155. -/
def activeBrandPairs (rows : List Row) : List ((String × String) × ℚ) :=
  (brandStoreSums rows).filter (fun g => decide (0 < g.2))

/-- Lines 151–161: positive-net (brand, store) pairs, distinct stores
counted per brand.  The pairs are distinct by construction, so `nunique`
is the pair count. -/
def activeByBrand (rows : List Row) : List (String × Nat) :=
  (sortedDistinct strLE ((activeBrandPairs rows).map (·.1.1))).map
    (fun b => (b, ((activeBrandPairs rows).filter (·.1.1 == b)).length))

/-- The positive-net (year, store) pairs of lines 215–219. -/
def activeYearPairs (rows : List Row) : List ((Int × String) × ℚ) :=
  (yearStoreSums rows).filter (fun g => decide (0 < g.2))

/-- Lines 215–225: positive-net (year, store) pairs, distinct stores
counted per year. -/
def activeByYear (rows : List Row) : List (Int × Nat) :=
  (sortedDistinct (· ≤ ·) ((activeYearPairs rows).map (·.1.1))).map
    (fun y => (y, ((activeYearPairs rows).filter (·.1.1 == y)).length))

/-- The descending-by-value order used by `Series.nlargest`; ties keep
first (original) position, which stable insertion sort realises. -/
def descValue {κ : Type} (a b : κ × ℚ) : Prop := b.2 ≤ a.2

instance {κ : Type} : DecidableRel (descValue (κ := κ)) := fun a b => by
  unfold descValue; infer_instance

instance {κ : Type} : IsTotal (κ × ℚ) descValue where
  total a b := le_total b.2 a.2

instance {κ : Type} : IsTrans (κ × ℚ) descValue where
  trans _ _ _ hab hbc := le_trans hbc hab

/-- Model of `Series.nlargest(n)`: sort descending (stable), take `n`
(a non-positive `n` yields an empty selection). -/
def nlargest {κ : Type} (n : Int) (l : List (κ × ℚ)) : List (κ × ℚ) :=
  (l.insertionSort descValue).take n.toNat

/-- numpy/pandas `.round(2)`: round half to even at the 2nd decimal. -/
def roundHalfEven (q : ℚ) : ℤ :=
  if q - ⌊q⌋ < 1/2 then ⌊q⌋
  else if 1/2 < q - ⌊q⌋ then ⌊q⌋ + 1
  else if ⌊q⌋ % 2 = 0 then ⌊q⌋ else ⌊q⌋ + 1

def round2 (q : ℚ) : ℚ := (roundHalfEven (q * 100) : ℚ) / 100

/-! ## Top-N Stage (`query_engine.get_top_n`) -/

/-- The `grouped` selection of the Top-N sales path (line 137):
`groupby('brand')['sales'].sum().nlargest(n)`. -/
def topnSelected (rows : List Row) (n : Int) : List (String × ℚ) :=
  nlargest n (brandSums rows)

/-- The denominator of the Top-N sales percentages (line 138): the sum
over the *selected* groups only. -/
def topnTotal (rows : List Row) (n : Int) : ℚ :=
  ((topnSelected rows n).map (·.2)).sum

/-- The selection of the Top-N active-stores path (lines 154–160):
per-brand active-store counts, `nlargest(n)`. -/
def topnActiveSelected (rows : List Row) (n : Int) : List (String × ℚ) :=
  nlargest n ((activeByBrand rows).map (fun g => (g.1, (g.2 : ℚ))))

/-- The denominator of the Top-N active-stores percentages (line 162). -/
def topnActiveTotal (rows : List Row) (n : Int) : ℚ :=
  ((topnActiveSelected rows n).map (·.2)).sum

/-- The `get_top_n` function of `query_engine.py` (lines 121–172).  When
the selected sums total `0` the source divides by zero (non-finite
floats); the rational model yields `0` there — noted where it matters
(claim C3). -/
def get_top_n (rows : List Row) (p : Params) : QueryResult :=
  if p.metric == "sales" then
    .success ((p.top_n.getD 5 : Int) : ℚ) (topnSelected rows (p.top_n.getD 5)).length
      (.topBrands ((topnSelected rows (p.top_n.getD 5)).map
        (fun g => RankLine.mk g.1 g.2 (round2 (g.2 / topnTotal rows (p.top_n.getD 5) * 100)))))
      (some "bar")
  else if p.metric == "active_stores" then
    .success ((p.top_n.getD 5 : Int) : ℚ) (topnActiveSelected rows (p.top_n.getD 5)).length
      (.topActiveBrands ((topnActiveSelected rows (p.top_n.getD 5)).map
        (fun g => RankLine.mk g.1 g.2 (round2 (g.2 / topnActiveTotal rows (p.top_n.getD 5) * 100)))))
      (some "bar")
  else .error "Invalid metric for top N query" none none none

/-! ## Comparison (YoY) Stage (`query_engine.calculate_yoy`) -/

def yoyChangeAux (prev : ℚ) : List (Int × ℚ) → List YoyLine
  | [] => []
  | (y, v) :: rest =>
    ⟨y, v, some ((v - prev) / prev * 100), some (v - prev)⟩ :: yoyChangeAux v rest

/-- Model of `pct_change() * 100` and `diff()` down a year-sorted series:
the first row gets `NaN` (here `none`), each later row is compared with
its immediate predecessor.  (`pct_change` against a `0` predecessor is
non-finite in pandas; the rational model yields `0` — no claim touches
that corner.) -/
def yoyChangeLines : List (Int × ℚ) → List YoyLine
  | [] => []
  | (y, v) :: rest => ⟨y, v, none, none⟩ :: yoyChangeAux v rest

/-- The `calculate_yoy` function of `query_engine.py` (lines 175–246).
`groupby('year')` already yields ascending years, so the source's
`sort_values('year')` is the identity here. -/
def calculate_yoy (rows : List Row) (p : Params) : QueryResult :=
  if p.metric == "sales" then
    if 2 ≤ (yearSums rows).length then
      .success ((yearSums rows).length : ℚ) (yearSums rows).length
        (.yoyTable (yoyChangeLines (yearSums rows))) (some "line")
    else
      .error "Insufficient data"
        (some "Need at least 2 years of data for YoY comparison") none
        (some (.yoyBare (yearSums rows)))
  else if p.metric == "active_stores" then
    if 2 ≤ (activeByYear rows).length then
      .success ((activeByYear rows).length : ℚ) (activeByYear rows).length
        (.yoyActiveTable (yoyChangeLines ((activeByYear rows).map (fun g => (g.1, (g.2 : ℚ))))))
        (some "line")
    else
      .error "Insufficient data"
        (some "Need at least 2 years of data for YoY comparison") none
        (some (.yoyActiveBare (activeByYear rows)))
  else .error "Invalid metric for YoY comparison" none none none

/-! ## Standard Aggregation Stage (`query_engine.query_data`, lines 73–118) -/

def salesLines (rows : List Row) : List SalesLine :=
  rows.map (fun r => ⟨r.brand, r.month, r.year, r.sales⟩)

/-- Model of `drop_duplicates('store_id')`: keep the first occurrence per
store id. -/
def dropDupByStore : List StoreLine → List String → List StoreLine
  | [], _ => []
  | x :: xs, seen =>
    if x.store_id ∈ seen then dropDupByStore xs seen
    else x :: dropDupByStore xs (x.store_id :: seen)

/-- Lines 101–103: display rows of the active-stores standard path. -/
def activeStoreDisplay (result : List Row) : List StoreLine :=
  dropDupByStore
    ((result.filter (fun r => (activeStoreIds result).contains r.store_id)).map
      (fun r => StoreLine.mk r.brand r.month r.year r.store_id)) []

def standard_agg (result : List Row) (p : Params) : QueryResult :=
  if p.metric == "sales" && p.aggregation == "sum" then
    .success (sumSales result) result.length (.salesCols ((salesLines result).take 100)) none
  else if p.metric == "sales" && p.aggregation == "average" then
    .success (meanSales result) result.length (.salesCols ((salesLines result).take 100)) none
  else if p.metric == "active_stores" then
    .success ((activeStoreIds result).length : ℚ) result.length
      (.storeCols ((activeStoreDisplay result).take 100)) none
  else
    .success ((result.length : Nat) : ℚ) result.length (.rawRows (result.take 100)) none

/-! ## `query_data` (top level) -/

def query_data (df : Frame) (p : Params) : PyResult QueryResult :=
  if df.rows.isEmpty then
    .ok (.error "No data available" none none none)
  else
    match applyFilters df p with
    | .raised e => .raised e
    | .ok result =>
      if result.isEmpty then
        .ok (.error "No data found"
          (some "No results match your filters. Try different criteria.") (some p) none)
      else if truthyInt p.top_n then .ok (get_top_n result p)
      else if p.comparison == some "yoy" then .ok (calculate_yoy result p)
      else .ok (standard_agg result p)

/-! ## `top_n` validation (`ai_extractor.validate_parameters`, lines 171–176) -/

/-- A loosely-typed parameter value as delivered by the extraction
collaborator: a JSON string or number. -/
inductive PValue where
  | s (v : String)
  | i (v : Int)
deriving DecidableEq, Repr

def pyTruthy : PValue → Bool
  | .s v => v != ""
  | .i v => v != 0

/-- Digit tail of a Python integer literal: digits, with single
underscores allowed *between* digits (PEP 515 grouping; `int("1_0")` is
`10` but `"1__0"`, `"_10"` and `"10_"` all raise). -/
def digitsCore (acc : Nat) : List Char → Option Nat
  | [] => some acc
  | '_' :: d :: rest =>
    if d.isDigit then digitsCore (acc * 10 + (d.toNat - 48)) rest else none
  | ['_'] => none
  | c :: rest =>
    if c.isDigit then digitsCore (acc * 10 + (c.toNat - 48)) rest else none

def digitsToNat (l : List Char) : Option Nat :=
  match l with
  | c :: rest => if c.isDigit then digitsCore (c.toNat - 48) rest else none
  | [] => none

/-- Python `int(str)`: surrounding whitespace allowed, optional sign, at
least one digit, single underscores allowed between digits; anything else
raises `ValueError` (`none` here). -/
def pyIntOfString (v : String) : Option Int :=
  match stripList v.data with
  | '+' :: rest => (digitsToNat rest).map Int.ofNat
  | '-' :: rest => (digitsToNat rest).map (fun m => -(Int.ofNat m))
  | l => (digitsToNat l).map Int.ofNat

/-- Python `int(x)` on a loose value. -/
def pyInt : PValue → Option Int
  | .i v => some v
  | .s v => pyIntOfString v

/-- Lines 171–176 of `ai_extractor.py`: a truthy `top_n` is coerced with
`int(...)`, coercion failure resets it to `None`; a falsy value (`None`,
`0`, `""`) is left untouched. -/
def validate_top_n : Option PValue → Option PValue
  | none => none
  | some v =>
    if pyTruthy v then
      match pyInt v with
      | some k => some (.i k)
      | none => none
    else some v

/-- Bridge from the validated loose value to the engine-level
`Params.top_n`.  After `validate_top_n` the only possible string left is
the falsy `""`, which behaves exactly like `None` throughout the engine
(both fail the `if params.get('top_n')` truthiness test). -/
def engineTopN : Option PValue → Option Int
  | some (.i k) => some k
  | some (.s _) => none
  | none => none

/-! ## Concrete fixtures used by witnesses and counterexamples -/

/-- A row with the required columns filled and unremarkable optional
columns. -/
def mkRow (b m : String) (y : Int) (sid : String) (v : ℚ) : Row :=
  ⟨b, "", "", m, y, "North", "Delhi", sid, some v⟩

/-- All-null parameters with the extraction defaults
`metric="sales"`, `aggregation="sum"`. -/
def pBase : Params :=
  ⟨none, none, none, none, none, "sales", "sum", none, none⟩

/-- Rows of two different years, store A netting to zero. -/
def rowsActive : List Row :=
  [mkRow "Lays" "JAN" 2023 "A" 100, mkRow "Lays" "JAN" 2023 "A" (-100),
   mkRow "Lays" "JAN" 2023 "B" 50]

/-- One brand, two years, totals 1000 and 1500. -/
def rowsTwoYears : List Row :=
  [mkRow "Lays" "JAN" 2023 "S1" 1000, mkRow "Lays" "FEB" 2024 "S1" 1500]

/-- Two brands whose sums cancel: total of the selected top-N is zero. -/
def rowsCancel : List Row :=
  [mkRow "A" "JAN" 2023 "S1" 100, mkRow "B" "JAN" 2023 "S2" (-100)]

/-- Three rows over two brands (Lays: 100 + 50, Coke: 50). -/
def rowsThree : List Row :=
  [mkRow "Lays" "JAN" 2023 "A" 100, mkRow "Lays" "JAN" 2023 "B" 50,
   mkRow "Coke" "JAN" 2023 "C" 50]

def frameOf (rows : List Row) : Frame := ⟨true, true, true, true, rows⟩

/-- A frame that has an `area` column but no `city` column. -/
def frameNoCity : Frame := ⟨true, true, true, false, [mkRow "Lays" "JAN" 2023 "A" 100]⟩

/-- A frame that has a `city` column but no `area` column. -/
def frameNoArea : Frame := ⟨true, true, false, true, [mkRow "Lays" "JAN" 2023 "A" 100]⟩

/-- A YoY request that also carries a (suppressed) year. -/
def pYoY2024 : Params := { pBase with comparison := some "yoy", year := some 2024 }

/-- A brand filter matching no stored row. -/
def pPepsi : Params := { pBase with brand := some "Pepsi" }

/-! ## Character- and string-level lemmas -/

theorem char_toNat_ofNat_of_lt {n : Nat} (h : n < 55296) : (Char.ofNat n).toNat = n := by
  have hv : n.isValidChar := Or.inl h
  unfold Char.ofNat
  rw [dif_pos hv]
  rfl

theorem string_data_inj {s t : String} (h : s.data = t.data) : s = t := by
  cases s
  cases t
  simp only at h
  rw [h]

theorem char_toLower_toUpper (c : Char) : c.toUpper.toLower = c.toLower := by
  unfold Char.toUpper Char.toLower
  by_cases h : c.toNat ≥ 97 ∧ c.toNat ≤ 122
  · rw [if_pos h]
    have h32 : (Char.ofNat (c.toNat - 32)).toNat = c.toNat - 32 :=
      char_toNat_ofNat_of_lt (by omega)
    rw [if_pos (by rw [h32]; omega), if_neg (by omega), h32]
    have : c.toNat - 32 + 32 = c.toNat := by omega
    rw [this, Char.ofNat_toNat]
  · rw [if_neg h]

theorem char_toUpper_toUpper (c : Char) : c.toUpper.toUpper = c.toUpper := by
  unfold Char.toUpper
  by_cases h : c.toNat ≥ 97 ∧ c.toNat ≤ 122
  · rw [if_pos h]
    have h32 : (Char.ofNat (c.toNat - 32)).toNat = c.toNat - 32 :=
      char_toNat_ofNat_of_lt (by omega)
    rw [if_neg (by rw [h32]; omega)]
  · rw [if_neg h, if_neg h]

theorem char_isWhitespace_false_of_ge {c : Char} (h65 : 65 ≤ c.toNat) :
    c.isWhitespace = false := by
  unfold Char.isWhitespace
  simp only [Bool.or_eq_false_iff, decide_eq_false_iff_not]
  have hne : ∀ d : Char, d.toNat < 65 → ¬ c = d := by
    intro d hd he
    have h' := congrArg Char.toNat he
    omega
  exact ⟨⟨⟨hne ' ' (by decide), hne '\t' (by decide)⟩, hne '\r' (by decide)⟩,
    hne '\n' (by decide)⟩

theorem char_isWhitespace_toUpper (c : Char) :
    c.toUpper.isWhitespace = c.isWhitespace := by
  unfold Char.toUpper
  by_cases h : c.toNat ≥ 97 ∧ c.toNat ≤ 122
  · rw [if_pos h]
    have h32 : (Char.ofNat (c.toNat - 32)).toNat = c.toNat - 32 :=
      char_toNat_ofNat_of_lt (by omega)
    rw [char_isWhitespace_false_of_ge (by rw [h32]; omega),
      char_isWhitespace_false_of_ge (by omega)]
  · rw [if_neg h]

theorem stripList_map_toUpper (l : List Char) :
    stripList (l.map Char.toUpper) = (stripList l).map Char.toUpper := by
  unfold stripList
  have hdw : ∀ m : List Char,
      (m.map Char.toUpper).dropWhile Char.isWhitespace
        = (m.dropWhile Char.isWhitespace).map Char.toUpper := by
    intro m
    induction m with
    | nil => simp
    | cons a t ih =>
      simp only [List.map_cons, List.dropWhile_cons, char_isWhitespace_toUpper a]
      by_cases ha : a.isWhitespace
      · simp [ha, ih]
      · simp [ha]
  rw [hdw, ← List.map_reverse, hdw, List.map_reverse]

theorem map_toLower_toUpper (l : List Char) :
    (l.map Char.toUpper).map Char.toLower = l.map Char.toLower := by
  rw [List.map_map]
  exact List.map_congr_left fun c _ => char_toLower_toUpper c

theorem dictGet_mem_values {d : List (String × String)} {k v : String}
    (h : dictGet d k = some v) : v ∈ d.map Prod.snd := by
  induction d with
  | nil => simp [dictGet] at h
  | cons p rest ih =>
    rw [dictGet] at h
    by_cases hk : k = p.1
    · rw [if_pos hk] at h
      simp only [Option.some.injEq] at h
      simp [← h]
    · rw [if_neg hk] at h
      simp [ih h]

theorem normalize_month_fixes_codes {k v : String}
    (h : dictGet MONTH_MAPPING k = some v) :
    normalize_month (some v) = some v := by
  have hv := dictGet_mem_values h
  unfold MONTH_MAPPING at hv
  simp only [List.map_cons, List.map_nil, List.mem_cons, List.not_mem_nil, or_false] at hv
  rcases hv with h' | h' | h' | h' | h' | h' | h' | h' | h' | h' | h' | h' | h' | h' | h' |
    h' | h' | h' | h' | h' | h' | h' | h' <;> subst h' <;> decide

theorem pyUpper_ne_empty {s : String} (h : s ≠ "") : pyUpper s ≠ "" := by
  intro he
  apply h
  have hdata : s.data.map Char.toUpper = [] := congrArg String.data he
  apply string_data_inj
  show s.data = ([] : List Char)
  cases hd : s.data with
  | nil => rfl
  | cons a t => rw [hd] at hdata; simp at hdata

/-- C10. The month normalizer is idempotent: applying `normalize_month`
twice gives the same result as applying it once, for every input
(including `None` and the empty string).  Recognized names map to a
canonical 3-letter code that is itself a fixed point; unrecognized input
is upper-cased and a second application leaves it unchanged. -/
theorem month_normalizer_idempotent (m : Option String) :
    normalize_month (normalize_month m) = normalize_month m := by
  match m with
  | none => rfl
  | some s =>
    by_cases hs : s = ""
    · subst hs; rfl
    · rw [normalize_month, if_neg hs]
      cases hlook : dictGet MONTH_MAPPING (pyLower (pyStrip s)) with
      | some c => exact normalize_month_fixes_codes hlook
      | none =>
        rw [normalize_month, if_neg (pyUpper_ne_empty hs)]
        have hkey : pyLower (pyStrip (pyUpper s)) = pyLower (pyStrip s) := by
          apply string_data_inj
          show (stripList (s.data.map Char.toUpper)).map Char.toLower
            = (stripList s.data).map Char.toLower
          rw [stripList_map_toUpper]
          exact map_toLower_toUpper _
        rw [hkey, hlook]
        have hupper : pyUpper (pyUpper s) = pyUpper s := by
          apply string_data_inj
          show (s.data.map Char.toUpper).map Char.toUpper = s.data.map Char.toUpper
          rw [List.map_map]
          exact List.map_congr_left fun c _ => char_toUpper_toUpper c
        rw [hupper]

/-! ## Filter-stage lemmas -/

theorem filterYear_id_of_yoy (p : Params) (h : p.comparison = some "yoy")
    (rows : List Row) : filterYear p rows = rows := by
  unfold filterYear
  cases hy : p.year with
  | none => rfl
  | some y => rw [h]; simp

/-- C1. When `comparison = "yoy"`, the Filter Stage never applies the year
predicate, even for a non-null year: the filtered subset is identical to
the one computed with the year parameter absent (so rows of every year
passing the other predicates are retained). -/
theorem yoy_suppresses_year_filter (f : Frame) (p : Params)
    (h : p.comparison = some "yoy") :
    applyFilters f p = applyFilters f { p with year := none } := by
  unfold applyFilters
  rw [filterYear_id_of_yoy p h]
  rfl

theorem yoy_suppresses_year_filter_witness :
    pYoY2024.comparison = some "yoy"
    ∧ applyFilters (frameOf rowsTwoYears) pYoY2024
      = applyFilters (frameOf rowsTwoYears) { pYoY2024 with year := none }
    ∧ applyFilters (frameOf rowsTwoYears) pYoY2024 = .ok rowsTwoYears :=
  ⟨rfl, yoy_suppresses_year_filter (frameOf rowsTwoYears) pYoY2024 rfl,
    by with_unfolding_all rfl⟩

/-! ## groupby lemmas -/

theorem mem_sortedDistinct {κ : Type} [DecidableEq κ] (le : κ → κ → Prop)
    [DecidableRel le] (l : List κ) (x : κ) :
    x ∈ sortedDistinct le l ↔ x ∈ l := by
  unfold sortedDistinct
  rw [(List.perm_insertionSort le l.dedup).mem_iff, List.mem_dedup]

/-- C2. A store id is counted by `activeStoreIds` iff it occurs in the
working set and its net sales there are strictly positive (`> 0`, not
`>= 0`); on the three-row example (store A: +100 and −100, store B: +50)
the standard aggregation path with `metric=active_stores` returns the
scalar 1, listing only store B. -/
theorem active_store_iff_positive_net :
    (∀ (rows : List Row) (s : String),
      s ∈ activeStoreIds rows ↔ s ∈ rows.map (·.store_id) ∧ 0 < storeNet rows s)
    ∧ standard_agg rowsActive { pBase with metric := "active_stores" }
      = .success 1 3 (.storeCols [⟨"Lays", "JAN", 2023, "B"⟩]) none := by
  constructor
  · intro rows s
    unfold activeStoreIds
    rw [List.mem_filter, mem_sortedDistinct]
    simp
  · with_unfolding_all rfl

/-! ## Error-path theorems -/

/-- C6 counterexample: with an *empty input row set* `query_data` returns
the bare early error dict `{"error": "No data available"}` — a different
kind from `"No data found"`, with *no* echoed `filters_applied` — even
though a non-null brand parameter was supplied. -/
theorem empty_input_error_lacks_echo :
    query_data (frameOf []) { pBase with brand := some "Lays" }
      = .ok (.error "No data available" none none none)
    ∧ "No data available" ≠ "No data found" := by
  constructor
  · with_unfolding_all rfl
  · decide

/-- C6 (amended). For a *non-empty* input row set whose filtered subset is
empty, `query_data` returns the `"No data found"` error echoing all
non-null parameters, before dispatching to any terminal stage (the result
does not depend on metric, aggregation, comparison or top_n). -/
theorem no_data_error_before_dispatch (f : Frame) (p : Params)
    (hne : f.rows ≠ []) (hempty : applyFilters f p = .ok []) :
    query_data f p = .ok (.error "No data found"
      (some "No results match your filters. Try different criteria.") (some p) none) := by
  unfold query_data
  have h1 : f.rows.isEmpty = false := by
    cases hr : f.rows with
    | nil => exact absurd hr hne
    | cons a t => rfl
  rw [h1, hempty]
  simp

theorem no_data_error_before_dispatch_witness :
    (frameOf rowsThree).rows ≠ []
    ∧ applyFilters (frameOf rowsThree) pPepsi = .ok []
    ∧ query_data (frameOf rowsThree) pPepsi = .ok (.error "No data found"
        (some "No results match your filters. Try different criteria.") (some pPepsi) none) :=
  ⟨by decide, by with_unfolding_all rfl,
    no_data_error_before_dispatch (frameOf rowsThree) pPepsi (by decide)
      (by with_unfolding_all rfl)⟩

/-- C7. The claim says a missing `area`/`city` column is feature-detected
and filtering proceeds over the existing columns; the code instead
subscripts both columns unconditionally, so a region query against a frame
lacking either optional column raises a `KeyError` that crosses the
engine boundary. -/
theorem region_filter_missing_column_raises :
    query_data frameNoCity { pBase with region := some "North" }
      = .raised "KeyError: city"
    ∧ query_data frameNoArea { pBase with region := some "North" }
      = .raised "KeyError: area" := by
  constructor <;> with_unfolding_all rfl

/-! ## top_n coercion theorems -/

/-- C9 counterexample: the supplied value `"-3"` is parseable, the
pipeline coerces it to the *negative* integer −3 (not a positive one),
and the query then dispatches to the Top-N stage with `n = -3` instead of
falling through to standard aggregation. -/
theorem topn_negative_coercion_counterexample :
    validate_top_n (some (.s "-3")) = some (.i (-3))
    ∧ engineTopN (validate_top_n (some (.s "-3"))) = some (-3)
    ∧ ¬ (0 < (-3 : Int))
    ∧ query_data (frameOf rowsThree) { pBase with top_n := some (-3) }
      = .ok (.success (-3) 0 (.topBrands []) (some "bar"))
    ∧ query_data (frameOf rowsThree) pBase
      = .ok (.success 200 3 (.salesCols
          [⟨"Lays", "JAN", 2023, some 100⟩, ⟨"Lays", "JAN", 2023, some 50⟩,
           ⟨"Coke", "JAN", 2023, some 50⟩]) none) := by
  refine ⟨by with_unfolding_all rfl, by with_unfolding_all rfl, by decide,
    by with_unfolding_all rfl, by with_unfolding_all rfl⟩

/-- C9 (amended). The pipeline coerces a truthy `top_n` with `int(...)` —
yielding an integer that need not be positive — and whenever the supplied
value is not parseable as an integer the validated `top_n` is `None`, so
the query behaves identically to one with `top_n` absent (falling through
to the standard Aggregation Stage with no error). -/
theorem topn_unparseable_behaves_as_absent (v : PValue) (f : Frame) (p : Params)
    (hv : pyInt v = none) :
    engineTopN (validate_top_n (some v)) = none
    ∧ query_data f { p with top_n := engineTopN (validate_top_n (some v)) }
      = query_data f { p with top_n := none } := by
  have hnone : engineTopN (validate_top_n (some v)) = none := by
    cases v with
    | i k => simp [pyInt] at hv
    | s x =>
      simp only [validate_top_n]
      by_cases ht : pyTruthy (.s x) = true
      · rw [if_pos ht, hv]
        rfl
      · rw [if_neg ht]
        rfl
  exact ⟨hnone, by rw [hnone]⟩

theorem topn_unparseable_behaves_as_absent_witness :
    pyInt (.s "ten") = none
    ∧ engineTopN (validate_top_n (some (.s "ten"))) = none
    ∧ query_data (frameOf rowsThree)
        { pBase with top_n := engineTopN (validate_top_n (some (.s "ten"))) }
      = query_data (frameOf rowsThree) { pBase with top_n := none } :=
  ⟨by with_unfolding_all rfl,
   (topn_unparseable_behaves_as_absent (.s "ten") (frameOf rowsThree) pBase
     (by with_unfolding_all rfl)).1,
   (topn_unparseable_behaves_as_absent (.s "ten") (frameOf rowsThree) pBase
     (by with_unfolding_all rfl)).2⟩

/-- PEP 515 digit grouping in the `int(str)` model: a single underscore
between digits is accepted (Python coerces `"1_0"` to `10` and a query
with that `top_n` dispatches the Top-N stage); leading, trailing or
doubled underscores raise. -/
theorem pyIntOfString_underscore_grouping :
    pyIntOfString "1_0" = some 10
    ∧ validate_top_n (some (.s "1_0")) = some (.i 10)
    ∧ pyIntOfString "1__0" = none
    ∧ pyIntOfString "_10" = none
    ∧ pyIntOfString "10_" = none
    ∧ pyIntOfString "-1_5" = some (-15) := by
  refine ⟨?_, ?_, ?_, ?_, ?_, ?_⟩ <;> with_unfolding_all rfl

/-! ## row_count theorems -/

/-- C8 counterexample: three filtered rows over two brands with
`top_n = 2` produce a Success Result whose `row_count` is 2 — the number
of aggregated groups — not 3, the number of rows remaining after
filtering. -/
theorem row_count_not_filtered_rows :
    applyFilters (frameOf rowsThree) { pBase with top_n := some 2 } = .ok rowsThree
    ∧ rowsThree.length = 3
    ∧ query_data (frameOf rowsThree) { pBase with top_n := some 2 }
      = .ok (.success 2 2 (.topBrands [⟨"Lays", 150, 75⟩, ⟨"Coke", 50, 25⟩]) (some "bar"))
    ∧ (2 : Nat) ≠ 3 :=
  ⟨by with_unfolding_all rfl, by decide, by with_unfolding_all rfl, by decide⟩

/-- C8 (amended). The `row_count` field equals the number of rows
remaining after filtering only for standard-aggregation results; the
Top-N and YoY stages — under either of their metrics — instead set
`row_count` to the number of rows of the aggregated result table (the
number of groups). -/
theorem row_count_semantics :
    (∀ (rows : List Row) (p : Params),
      (standard_agg rows p).rowCount = some rows.length)
    ∧ (∀ (rows : List Row) (p : Params), p.metric = "sales" →
      (get_top_n rows p).rowCount = some (topnSelected rows (p.top_n.getD 5)).length)
    ∧ (∀ (rows : List Row) (p : Params), p.metric = "active_stores" →
      (get_top_n rows p).rowCount = some (topnActiveSelected rows (p.top_n.getD 5)).length)
    ∧ (∀ (rows : List Row) (p : Params), p.metric = "sales" →
      2 ≤ (yearSums rows).length →
      (calculate_yoy rows p).rowCount = some (yearSums rows).length)
    ∧ (∀ (rows : List Row) (p : Params), p.metric = "active_stores" →
      2 ≤ (activeByYear rows).length →
      (calculate_yoy rows p).rowCount = some (activeByYear rows).length) := by
  refine ⟨?_, ?_, ?_, ?_, ?_⟩
  · intro rows p
    unfold standard_agg
    split
    · rfl
    · split
      · rfl
      · split
        · rfl
        · rfl
  · intro rows p hm
    have hb : (p.metric == "sales") = true := by rw [hm]; decide
    unfold get_top_n
    rw [if_pos hb]
    rfl
  · intro rows p hm
    have hb : (p.metric == "sales") = false := by rw [hm]; decide
    have hb2 : (p.metric == "active_stores") = true := by rw [hm]; decide
    unfold get_top_n
    rw [if_neg (by rw [hb]; decide), if_pos hb2]
    rfl
  · intro rows p hm hlen
    have hb : (p.metric == "sales") = true := by rw [hm]; decide
    unfold calculate_yoy
    rw [if_pos hb, if_pos hlen]
    rfl
  · intro rows p hm hlen
    have hb : (p.metric == "sales") = false := by rw [hm]; decide
    have hb2 : (p.metric == "active_stores") = true := by rw [hm]; decide
    unfold calculate_yoy
    rw [if_neg (by rw [hb]; decide), if_pos hb2, if_pos hlen]
    rfl

theorem row_count_semantics_witness :
    (standard_agg rowsThree pBase).rowCount = some rowsThree.length
    ∧ ({ pBase with top_n := some 2 } : Params).metric = "sales"
    ∧ (get_top_n rowsThree { pBase with top_n := some 2 }).rowCount
      = some (topnSelected rowsThree (({ pBase with top_n := some 2 } : Params).top_n.getD 5)).length
    ∧ ({ pBase with metric := "active_stores", top_n := some 2 } : Params).metric
      = "active_stores"
    ∧ (get_top_n rowsThree { pBase with metric := "active_stores", top_n := some 2 }).rowCount
      = some (topnActiveSelected rowsThree
          (({ pBase with metric := "active_stores", top_n := some 2 } : Params).top_n.getD 5)).length
    ∧ 2 ≤ (yearSums rowsTwoYears).length
    ∧ (calculate_yoy rowsTwoYears pBase).rowCount = some (yearSums rowsTwoYears).length
    ∧ 2 ≤ (activeByYear rowsTwoYears).length
    ∧ (calculate_yoy rowsTwoYears { pBase with metric := "active_stores" }).rowCount
      = some (activeByYear rowsTwoYears).length :=
  ⟨row_count_semantics.1 rowsThree pBase,
   rfl,
   row_count_semantics.2.1 rowsThree { pBase with top_n := some 2 } rfl,
   rfl,
   row_count_semantics.2.2.1 rowsThree
     { pBase with metric := "active_stores", top_n := some 2 } rfl,
   by with_unfolding_all decide,
   row_count_semantics.2.2.2.1 rowsTwoYears pBase rfl (by with_unfolding_all decide),
   by with_unfolding_all decide,
   row_count_semantics.2.2.2.2 rowsTwoYears { pBase with metric := "active_stores" } rfl
     (by with_unfolding_all decide)⟩

/-! ## YoY insufficient-data theorems -/

theorem nodup_sortedDistinct {κ : Type} [DecidableEq κ] (le : κ → κ → Prop)
    [DecidableRel le] (l : List κ) : (sortedDistinct le l).Nodup := by
  unfold sortedDistinct
  exact ((List.perm_insertionSort le l.dedup).nodup_iff).mpr (List.nodup_dedup l)

theorem length_le_of_nodup_subset {κ : Type} [DecidableEq κ] {l₁ l₂ : List κ}
    (h₁ : l₁.Nodup) (hsub : ∀ x ∈ l₁, x ∈ l₂) : l₁.length ≤ l₂.length :=
  calc l₁.length = l₁.toFinset.card := (List.toFinset_card_of_nodup h₁).symm
    _ ≤ l₂.toFinset.card := Finset.card_le_card (fun x hx =>
        List.mem_toFinset.mpr (hsub x (List.mem_toFinset.mp hx)))
    _ ≤ l₂.length := l₂.toFinset_card_le

/-- The per-year active-store table has at most one row per distinct year
of the working set. -/
theorem activeByYear_length_le (rows : List Row) :
    (activeByYear rows).length
      ≤ (sortedDistinct (· ≤ ·) (rows.map (·.year))).length := by
  unfold activeByYear
  rw [List.length_map]
  apply length_le_of_nodup_subset (nodup_sortedDistinct _ _)
  intro y hy
  rw [mem_sortedDistinct] at hy
  rw [mem_sortedDistinct]
  rcases List.mem_map.mp hy with ⟨g, hg, rfl⟩
  have hg' : g ∈ yearStoreSums rows := (List.mem_filter.mp hg).1
  unfold yearStoreSums at hg'
  rcases List.mem_map.mp hg' with ⟨k, hk, rfl⟩
  rw [mem_sortedDistinct] at hk
  rcases List.mem_map.mp hk with ⟨r, hr, rfl⟩
  exact List.mem_map.mpr ⟨r, hr, rfl⟩

/-- C5. For a non-empty working set with fewer than 2 distinct years, the
YoY stage — under either metric — returns the `"Insufficient data"` error
whose message states that at least 2 years are required, still carrying
the partial aggregated table in its `data` field (for `metric=sales` that
table has exactly the single year's total). -/
theorem yoy_insufficient_data (rows : List Row) (p : Params)
    (hne : rows ≠ [])
    (hyears : (sortedDistinct (· ≤ ·) (rows.map (·.year))).length < 2) :
    (p.metric = "sales" →
      calculate_yoy rows p = .error "Insufficient data"
        (some "Need at least 2 years of data for YoY comparison") none
        (some (.yoyBare (yearSums rows)))
      ∧ (yearSums rows).length = 1)
    ∧ (p.metric = "active_stores" →
      calculate_yoy rows p = .error "Insufficient data"
        (some "Need at least 2 years of data for YoY comparison") none
        (some (.yoyActiveBare (activeByYear rows)))) := by
  have hpos : 1 ≤ (sortedDistinct (· ≤ ·) (rows.map (·.year))).length := by
    cases hr : rows with
    | nil => exact absurd hr hne
    | cons r t =>
      subst hr
      have hmem : r.year ∈ sortedDistinct (· ≤ ·) ((r :: t).map (·.year)) := by
        rw [mem_sortedDistinct]
        simp
      exact List.length_pos.mpr (List.ne_nil_of_mem hmem)
  have hys : (yearSums rows).length = 1 := by
    unfold yearSums
    rw [List.length_map]
    omega
  constructor
  · intro hm
    have hb : (p.metric == "sales") = true := by rw [hm]; decide
    refine ⟨?_, hys⟩
    unfold calculate_yoy
    rw [if_pos hb, if_neg (by rw [hys]; omega)]
  · intro hm
    have hb : (p.metric == "sales") = false := by rw [hm]; decide
    have hb2 : (p.metric == "active_stores") = true := by rw [hm]; decide
    have hlen : ¬ 2 ≤ (activeByYear rows).length := by
      have := activeByYear_length_le rows
      omega
    unfold calculate_yoy
    rw [if_neg (by rw [hb]; decide), if_pos hb2, if_neg hlen]

theorem yoy_insufficient_data_witness :
    ([mkRow "Lays" "JAN" 2023 "A" 100] : List Row) ≠ []
    ∧ (sortedDistinct (· ≤ ·) (([mkRow "Lays" "JAN" 2023 "A" 100] : List Row).map (·.year))).length < 2
    ∧ calculate_yoy [mkRow "Lays" "JAN" 2023 "A" 100] pBase
      = .error "Insufficient data"
        (some "Need at least 2 years of data for YoY comparison") none
        (some (.yoyBare [(2023, 100)]))
    ∧ calculate_yoy [mkRow "Lays" "JAN" 2023 "A" 100] { pBase with metric := "active_stores" }
      = .error "Insufficient data"
        (some "Need at least 2 years of data for YoY comparison") none
        (some (.yoyActiveBare [(2023, 1)])) := by
  refine ⟨by decide, by with_unfolding_all decide, ?_, ?_⟩
  · have h := ((yoy_insufficient_data [mkRow "Lays" "JAN" 2023 "A" 100] pBase
      (by decide) (by with_unfolding_all decide)).1 rfl).1
    rw [h]
    with_unfolding_all rfl
  · have h := (yoy_insufficient_data [mkRow "Lays" "JAN" 2023 "A" 100]
      { pBase with metric := "active_stores" }
      (by decide) (by with_unfolding_all decide)).2 rfl
    rw [h]
    with_unfolding_all rfl

/-! ## YoY change-computation theorems -/

theorem yoyChangeAux_head (prev : ℚ) (t : List (Int × ℚ)) (y : Int) (v : ℚ)
    (h : t[0]? = some (y, v)) :
    (yoyChangeAux prev t)[0]?
      = some ⟨y, v, some ((v - prev) / prev * 100), some (v - prev)⟩ := by
  cases t with
  | nil => simp at h
  | cons a rest =>
    obtain ⟨ya, va⟩ := a
    simp only [List.getElem?_cons_zero, Option.some.injEq, Prod.mk.injEq] at h
    obtain ⟨rfl, rfl⟩ := h
    simp [yoyChangeAux]

theorem yoyChangeAux_succ (t : List (Int × ℚ)) :
    ∀ (prev : ℚ) (i : Nat) (py : Int) (pv : ℚ) (y : Int) (v : ℚ),
    t[i]? = some (py, pv) → t[i + 1]? = some (y, v) →
    (yoyChangeAux prev t)[i + 1]?
      = some ⟨y, v, some ((v - pv) / pv * 100), some (v - pv)⟩ := by
  induction t with
  | nil => intro prev i py pv y v h1 _; simp at h1
  | cons a rest ih =>
    intro prev i py pv y v h1 h2
    obtain ⟨ya, va⟩ := a
    cases i with
    | zero =>
      simp only [List.getElem?_cons_zero, Option.some.injEq, Prod.mk.injEq] at h1
      obtain ⟨rfl, rfl⟩ := h1
      simp only [yoyChangeAux, List.getElem?_cons_succ]
      exact yoyChangeAux_head va rest y v (by simpa using h2)
    | succ j =>
      simp only [yoyChangeAux, List.getElem?_cons_succ]
      exact ih va j py pv y v (by simpa using h1) (by simpa using h2)

/-- C4. With `metric=sales` and at least 2 distinct years in the working
set, the YoY stage groups by year and sums sales per year; the per-year
table is sorted strictly ascending by year; the first year's change
fields are null and every later year's percent and absolute change are
computed against the immediately preceding year; on the concrete two-year
example (2023: 1000, 2024: 1500) the single change row is
`pct_change = +50`, `abs_change = +500`. -/
theorem yoy_sales_semantics :
    (∀ (rows : List Row) (p : Params), p.metric = "sales" →
      2 ≤ (yearSums rows).length →
      calculate_yoy rows p = .success ((yearSums rows).length : ℚ)
        (yearSums rows).length (.yoyTable (yoyChangeLines (yearSums rows)))
        (some "line"))
    ∧ (∀ rows : List Row, List.Sorted (· < ·) ((yearSums rows).map Prod.fst))
    ∧ (∀ (ys : List (Int × ℚ)) (y : Int) (v : ℚ), ys[0]? = some (y, v) →
      (yoyChangeLines ys)[0]? = some ⟨y, v, none, none⟩)
    ∧ (∀ (ys : List (Int × ℚ)) (i : Nat) (py y : Int) (pv v : ℚ),
      ys[i]? = some (py, pv) → ys[i + 1]? = some (y, v) →
      (yoyChangeLines ys)[i + 1]?
        = some ⟨y, v, some ((v - pv) / pv * 100), some (v - pv)⟩)
    ∧ calculate_yoy rowsTwoYears pBase
      = .success 2 2 (.yoyTable
          [⟨2023, 1000, none, none⟩, ⟨2024, 1500, some 50, some 500⟩])
        (some "line") := by
  refine ⟨?_, ?_, ?_, ?_, ?_⟩
  · intro rows p hm hlen
    have hb : (p.metric == "sales") = true := by rw [hm]; decide
    unfold calculate_yoy
    rw [if_pos hb, if_pos hlen]
  · intro rows
    unfold yearSums
    rw [List.map_map]
    have hmap : (Prod.fst ∘ fun y => (y, sumSales (rows.filter (·.year == y))))
        = fun (y : Int) => y := rfl
    rw [hmap]
    have hid : (sortedDistinct (· ≤ ·) (rows.map (·.year))).map (fun y => y)
        = sortedDistinct (· ≤ ·) (rows.map (·.year)) := List.map_id _
    rw [hid]
    exact List.Sorted.lt_of_le
      (List.sorted_insertionSort (· ≤ ·) _)
      (nodup_sortedDistinct (· ≤ ·) _)
  · intro ys y v h
    cases ys with
    | nil => simp at h
    | cons a rest =>
      obtain ⟨ya, va⟩ := a
      simp only [List.getElem?_cons_zero, Option.some.injEq, Prod.mk.injEq] at h
      obtain ⟨rfl, rfl⟩ := h
      simp [yoyChangeLines]
  · intro ys i py y pv v h1 h2
    cases ys with
    | nil => simp at h1
    | cons a rest =>
      obtain ⟨ya, va⟩ := a
      cases i with
      | zero =>
        simp only [List.getElem?_cons_zero, Option.some.injEq, Prod.mk.injEq] at h1
        obtain ⟨rfl, rfl⟩ := h1
        simp only [yoyChangeLines, List.getElem?_cons_succ]
        exact yoyChangeAux_head va rest y v (by simpa using h2)
      | succ j =>
        simp only [yoyChangeLines, List.getElem?_cons_succ]
        exact yoyChangeAux_succ rest va j py pv y v
          (by simpa using h1) (by simpa using h2)
  · with_unfolding_all rfl

theorem yoy_sales_semantics_witness :
    pBase.metric = "sales"
    ∧ 2 ≤ (yearSums rowsTwoYears).length
    ∧ calculate_yoy rowsTwoYears pBase = .success ((yearSums rowsTwoYears).length : ℚ)
        (yearSums rowsTwoYears).length
        (.yoyTable (yoyChangeLines (yearSums rowsTwoYears))) (some "line")
    ∧ (yoyChangeLines [((2023 : Int), (1000 : ℚ)), (2024, 1500)])[0]?
      = some ⟨2023, 1000, none, none⟩
    ∧ (yoyChangeLines [((2023 : Int), (1000 : ℚ)), (2024, 1500)])[1]?
      = some ⟨2024, 1500, some ((1500 - 1000) / 1000 * 100), some (1500 - 1000)⟩ :=
  ⟨rfl, by with_unfolding_all decide,
   yoy_sales_semantics.1 rowsTwoYears pBase rfl (by with_unfolding_all decide),
   yoy_sales_semantics.2.2.1 _ 2023 1000 (by with_unfolding_all rfl),
   yoy_sales_semantics.2.2.2.1 _ 0 2023 2024 1000 1500
     (by with_unfolding_all rfl) (by with_unfolding_all rfl)⟩

/-! ## Top-N share theorems -/

/-- C3 counterexample: two brands whose sums are +100 and −100; with
`top_n = 2` the selected sums total zero, every percentage degenerates
(division by zero — non-finite in the float implementation, `0` in this
rational model) and the returned percentages sum to 0, not 100. -/
theorem topn_zero_total_counterexample :
    get_top_n rowsCancel { pBase with top_n := some 2 }
      = .success 2 2 (.topBrands [⟨"A", 100, 0⟩, ⟨"B", -100, 0⟩]) (some "bar")
    ∧ topnTotal rowsCancel 2 = 0
    ∧ (([⟨"A", 100, 0⟩, ⟨"B", -100, 0⟩] : List RankLine).map (·.percentage)).sum = 0
    ∧ (0 : ℚ) ≠ 100 := by
  refine ⟨by with_unfolding_all rfl, by with_unfolding_all rfl,
    by with_unfolding_all rfl, by with_unfolding_all decide⟩

/-- C3 (amended). With `metric=sales` and a supplied `top_n = n`, the
Top-N stage groups by brand, sums sales per brand, selects the `n`
largest sums (all groups when `n` is at least the number of distinct
brands; every selected sum is at least every unselected sum), and gives
each selected brand the percentage `round2(sum / selectedTotal * 100)`
where `selectedTotal` sums only the selected groups; *provided that
selected total is nonzero*, the unrounded percentages sum to exactly 100
(when it is zero the divisions are degenerate — non-finite in the
implementation). -/
theorem topn_sales_shares (rows : List Row) (n : Int) (p : Params)
    (hm : p.metric = "sales") (hn : p.top_n = some n) :
    get_top_n rows p = .success (n : ℚ) (topnSelected rows n).length
      (.topBrands ((topnSelected rows n).map
        (fun g => RankLine.mk g.1 g.2 (round2 (g.2 / topnTotal rows n * 100)))))
      (some "bar")
    ∧ ((brandSums rows).length ≤ n.toNat → (topnSelected rows n).Perm (brandSums rows))
    ∧ (∀ x ∈ topnSelected rows n,
        ∀ y ∈ ((brandSums rows).insertionSort descValue).drop n.toNat, y.2 ≤ x.2)
    ∧ (topnTotal rows n ≠ 0 →
        ((topnSelected rows n).map (fun g => g.2 / topnTotal rows n * 100)).sum = 100) := by
  have hb : (p.metric == "sales") = true := by rw [hm]; decide
  have hgd : p.top_n.getD 5 = n := by rw [hn]; rfl
  refine ⟨?_, ?_, ?_, ?_⟩
  · unfold get_top_n
    rw [if_pos hb, hgd]
  · intro hlen
    unfold topnSelected nlargest
    have hl : ((brandSums rows).insertionSort descValue).length = (brandSums rows).length :=
      (List.perm_insertionSort descValue _).length_eq
    rw [List.take_of_length_le (by rw [hl]; exact hlen)]
    exact List.perm_insertionSort descValue _
  · intro x hx y hy
    have hs : List.Sorted descValue ((brandSums rows).insertionSort descValue) :=
      List.sorted_insertionSort descValue _
    rw [← List.take_append_drop n.toNat ((brandSums rows).insertionSort descValue)] at hs
    exact (List.pairwise_append.mp hs).2.2 x hx y hy
  · intro hT
    have hrw : (fun (g : String × ℚ) => g.2 / topnTotal rows n * 100)
        = (fun g => g.2 * ((topnTotal rows n)⁻¹ * 100)) := by
      funext g
      rw [div_eq_mul_inv, mul_assoc]
    rw [hrw, List.sum_map_mul_right]
    show topnTotal rows n * ((topnTotal rows n)⁻¹ * 100) = 100
    rw [← mul_assoc, mul_inv_cancel₀ hT, one_mul]

theorem topn_sales_shares_witness :
    ({ pBase with top_n := some 5 } : Params).metric = "sales"
    ∧ ({ pBase with top_n := some 5 } : Params).top_n = some 5
    ∧ (brandSums rowsThree).length ≤ (5 : Int).toNat
    ∧ topnTotal rowsThree 5 ≠ 0
    ∧ get_top_n rowsThree { pBase with top_n := some 5 }
      = .success 5 2 (.topBrands [⟨"Lays", 150, 75⟩, ⟨"Coke", 50, 25⟩]) (some "bar")
    ∧ (topnSelected rowsThree 5).Perm (brandSums rowsThree)
    ∧ ((topnSelected rowsThree 5).map (fun g => g.2 / topnTotal rowsThree 5 * 100)).sum
      = 100 := by
  refine ⟨rfl, rfl, by with_unfolding_all decide, by with_unfolding_all decide, ?_, ?_, ?_⟩
  · have h := (topn_sales_shares rowsThree 5 { pBase with top_n := some 5 } rfl rfl).1
    rw [h]
    with_unfolding_all rfl
  · exact (topn_sales_shares rowsThree 5 { pBase with top_n := some 5 } rfl rfl).2.1
      (by with_unfolding_all decide)
  · exact (topn_sales_shares rowsThree 5 { pBase with top_n := some 5 } rfl rfl).2.2.2
      (by with_unfolding_all decide)

end SalesChatbot
